import Mathlib

/-!
Host-side client sessions (`host/client_session.cc`) and the shared-memory factory
(`ipc/shared_memory_factory.h`).

A shallow embedding of `host::ClientSession` (construction, the factory function
`create`, the lifecycle operations and the channel-listener callbacks) and of the
notification protocol of `ipc::SharedMemoryFactory`.

Conventions of the embedding

* A C++ pointer (`std::unique_ptr<NetworkChannel>`, `Delegate*`) is an `Option` of an
  identity; `none` is the null pointer.
* The function-local `static uint32_t id_counter` is threaded explicitly as a `Nat`
  and every increment is reduced modulo `2^32`.
* Calls that leave the class (channel methods, the virtual `onStarted` hook, the
  delegate callback, the log line) are recorded, in program order, as a list of
  `Event`s returned next to the new object state.
* Dereferencing a null pointer, a failing `DCHECK` and a reached `NOTREACHED` end the
  execution with a `Fault`.
-/

namespace host

/-- Build flavour. `DCHECK` and `NOTREACHED` come from `base/logging.h`, which is not
part of the translated sources: debug assertions abort when they are compiled in and
expand to nothing otherwise, so the flavour is a parameter of the model. -/
structure BuildConfig where
  dcheck_is_on : Bool
deriving DecidableEq, Repr

/-- The enum `proto::SessionType`. The three enumerators named by `ClientSession::create` and
one constructor standing for every other value the protobuf enum can carry. -/
inductive SessionType where
  | SESSION_TYPE_DESKTOP_MANAGE
  | SESSION_TYPE_DESKTOP_VIEW
  | SESSION_TYPE_FILE_TRANSFER
  | SESSION_TYPE_OTHER (raw : Nat)
deriving DecidableEq, Repr

/-- The enum `ClientSession::State`. -/
inductive State where
  | CREATED
  | STARTED
  | FINISHED
deriving DecidableEq, Repr

/-- Position of a state in the lifecycle order CREATED < STARTED < FINISHED. -/
def State.rank : State → Nat
  | .CREATED => 0
  | .STARTED => 1
  | .FINISHED => 2

/-- Identity of a `base::NetworkChannel` object. -/
abbrev NetworkChannel := Nat

/-- Identity of a `ClientSession::Delegate` object. -/
abbrev Delegate := Nat

/-- The enum `base::NetworkChannel::ErrorCode`, by its numeric value. -/
abbrev ErrorCode := Nat

/-- The type `base::Version`, as its list of components. -/
abbrev Version := List Nat

/-- The type `base::SessionId`. -/
abbrev SessionId := Nat

/-- The type `base::ByteArray`. -/
abbrev ByteArray := List Nat

/-- The concrete class of a session object. -/
inductive SessionClass where
  | ClientSessionDesktop
  | ClientSessionFileTransfer
deriving DecidableEq, Repr

/-- Ways in which an execution stops abnormally. -/
inductive Fault where
  /-- A `DCHECK` failed in a build with debug assertions. -/
  | dcheck_failed
  /-- A `NOTREACHED()` was reached in a build with debug assertions. -/
  | not_reached
  /-- A call `channel_->...` with `channel_ == nullptr`. -/
  | null_channel
  /-- The call `delegate_->onClientSessionFinished()` with `delegate_ == nullptr`. -/
  | null_delegate
deriving DecidableEq, Repr

/-- Calls leaving the session object, in program order. The session passes `this` as
listener; it is recorded by the session id. -/
inductive Event where
  | setListener (channel : NetworkChannel) (listener : Nat)
  | resume (channel : NetworkChannel)
  | send (channel : NetworkChannel) (buffer : ByteArray)
  | onStarted (session : Nat)
  | onClientSessionFinished (delegate : Delegate)
  | logWarning (error_code : ErrorCode)
deriving DecidableEq, Repr

/-- Data members of `host::ClientSession`, plus the dynamic class of the object. -/
structure ClientSession where
  cls : SessionClass
  id_ : Nat
  session_type_ : SessionType
  state_ : State
  channel_ : Option NetworkChannel
  delegate_ : Option Delegate
  version_ : Version
  username_ : String
  session_id_ : SessionId
deriving DecidableEq, Repr

/-- Width of the `uint32_t` id counter. -/
def kUint32Modulus : Nat := 4294967296

/-- Modelled from the spec: `base::kInvalidSessionId`, the value of `session_id_`
before `setSessionId`; the header with the member initialisers is not in the sources. -/
def kInvalidSessionId : SessionId := 4294967295

/-- The constructor `ClientSession::ClientSession(session_type, channel)`: stores the two arguments,
checks `DCHECK(channel_)`, then `id_ = ++id_counter` on the `uint32_t` counter.
The members without an initialiser in the constructor start as the spec describes them
(state CREATED, no delegate, empty metadata). Returns the object and the new counter. -/
def ClientSession.construct (cfg : BuildConfig) (id_counter : Nat) (cls : SessionClass)
    (session_type : SessionType) (channel : Option NetworkChannel) :
    Except Fault (ClientSession × Nat) :=
  if cfg.dcheck_is_on && channel.isNone then
    .error .dcheck_failed
  else
    let id_counter1 := (id_counter + 1) % kUint32Modulus
    .ok ({ cls := cls
           id_ := id_counter1
           session_type_ := session_type
           state_ := .CREATED
           channel_ := channel
           delegate_ := none
           version_ := []
           username_ := ""
           session_id_ := kInvalidSessionId }, id_counter1)

/-- Modelled from the spec: the constructor `ClientSessionDesktop(session_type, channel)`
of `host/client_session_desktop.cc`, which is not in the sources. It forwards both
arguments to the base-class constructor (the spec: the session's `sessionType` equals
the kind it was created for). -/
def ClientSessionDesktop.construct (cfg : BuildConfig) (id_counter : Nat)
    (session_type : SessionType) (channel : Option NetworkChannel) :
    Except Fault (ClientSession × Nat) :=
  ClientSession.construct cfg id_counter .ClientSessionDesktop session_type channel

/-- Modelled from the spec: the constructor `ClientSessionFileTransfer(channel)` of
`host/client_session_file_transfer.cc`, which is not in the sources. It takes no
session type and passes `SESSION_TYPE_FILE_TRANSFER` to the base-class constructor
(the spec: the session's `sessionType` equals the kind it was created for). -/
def ClientSessionFileTransfer.construct (cfg : BuildConfig) (id_counter : Nat)
    (channel : Option NetworkChannel) : Except Fault (ClientSession × Nat) :=
  ClientSession.construct cfg id_counter .ClientSessionFileTransfer
    .SESSION_TYPE_FILE_TRANSFER channel

/-- The factory function `ClientSession::create(session_type, channel)`: `nullptr` for a null channel, a
desktop session for the two desktop kinds, a file-transfer session for
`SESSION_TYPE_FILE_TRANSFER`, `nullptr` for every other kind. The second component
is the id counter after the call. -/
def ClientSession.create (cfg : BuildConfig) (id_counter : Nat)
    (session_type : SessionType) (channel : Option NetworkChannel) :
    Except Fault (Option ClientSession × Nat) :=
  match channel with
  | none => .ok (none, id_counter)
  | some ch =>
    match session_type with
    | .SESSION_TYPE_DESKTOP_MANAGE | .SESSION_TYPE_DESKTOP_VIEW =>
      match ClientSessionDesktop.construct cfg id_counter session_type (some ch) with
      | .error f => .error f
      | .ok (s, c) => .ok (some s, c)
    | .SESSION_TYPE_FILE_TRANSFER =>
      match ClientSessionFileTransfer.construct cfg id_counter (some ch) with
      | .error f => .error f
      | .ok (s, c) => .ok (some s, c)
    | .SESSION_TYPE_OTHER _ => .ok (none, id_counter)

/-- The member function `ClientSession::start(delegate)`: sets the state, stores the
delegate, checks `DCHECK(delegate_)`, then calls `setListener(this)` and `resume()` on
the channel and the virtual `onStarted()`. -/
def ClientSession.start (cfg : BuildConfig) (s : ClientSession)
    (delegate : Option Delegate) : Except Fault (ClientSession × List Event) :=
  let s1 := { s with state_ := .STARTED }
  let s2 := { s1 with delegate_ := delegate }
  if cfg.dcheck_is_on && s2.delegate_.isNone then
    .error .dcheck_failed
  else
    match s2.channel_ with
    | none => .error .null_channel
    | some ch => .ok (s2, [.setListener ch s2.id_, .resume ch, .onStarted s2.id_])

/-- The member function `ClientSession::stop()`: sets the state, then calls the
delegate. -/
def ClientSession.stop (s : ClientSession) : Except Fault (ClientSession × List Event) :=
  let s1 := { s with state_ := .FINISHED }
  match s1.delegate_ with
  | none => .error .null_delegate
  | some d => .ok (s1, [.onClientSessionFinished d])

/-- The member function `ClientSession::setVersion(version)`. -/
def ClientSession.setVersion (s : ClientSession) (version : Version) :
    Except Fault (ClientSession × List Event) :=
  .ok ({ s with version_ := version }, [])

/-- The member function `ClientSession::setUserName(username)`. -/
def ClientSession.setUserName (s : ClientSession) (username : String) :
    Except Fault (ClientSession × List Event) :=
  .ok ({ s with username_ := username }, [])

/-- The member function `ClientSession::setSessionId(session_id)`. -/
def ClientSession.setSessionId (s : ClientSession) (session_id : SessionId) :
    Except Fault (ClientSession × List Event) :=
  .ok ({ s with session_id_ := session_id }, [])

/-- The member function `ClientSession::sendMessage(buffer)`: `channel_->send(buffer)`. -/
def ClientSession.sendMessage (s : ClientSession) (buffer : ByteArray) :
    Except Fault (ClientSession × List Event) :=
  match s.channel_ with
  | none => .error .null_channel
  | some ch => .ok (s, [.send ch buffer])

/-- The listener callback `ClientSession::onConnected()`: `NOTREACHED()`. -/
def ClientSession.onConnected (cfg : BuildConfig) (s : ClientSession) :
    Except Fault (ClientSession × List Event) :=
  if cfg.dcheck_is_on then .error .not_reached else .ok (s, [])

/-- The listener callback `ClientSession::onDisconnected(error_code)`: logs the error
code, sets the state, then calls the delegate. -/
def ClientSession.onDisconnected (s : ClientSession) (error_code : ErrorCode) :
    Except Fault (ClientSession × List Event) :=
  let s1 := { s with state_ := .FINISHED }
  match s1.delegate_ with
  | none => .error .null_delegate
  | some d => .ok (s1, [.logWarning error_code, .onClientSessionFinished d])

/-- One call on a session object. -/
inductive Op where
  | start (delegate : Option Delegate)
  | stop
  | setVersion (version : Version)
  | setUserName (username : String)
  | setSessionId (session_id : SessionId)
  | sendMessage (buffer : ByteArray)
  | onConnected
  | onDisconnected (error_code : ErrorCode)
deriving DecidableEq, Repr

/-- Dispatch of one call to the member function it names. -/
def step (cfg : BuildConfig) (s : ClientSession) : Op → Except Fault (ClientSession × List Event)
  | .start delegate => s.start cfg delegate
  | .stop => s.stop
  | .setVersion version => s.setVersion version
  | .setUserName username => s.setUserName username
  | .setSessionId session_id => s.setSessionId session_id
  | .sendMessage buffer => s.sendMessage buffer
  | .onConnected => s.onConnected cfg
  | .onDisconnected error_code => s.onDisconnected error_code

/-- A sequence of calls on one session object; the first fault ends the execution.
The events of all calls are concatenated in call order. -/
def run (cfg : BuildConfig) : ClientSession → List Op → Except Fault (ClientSession × List Event)
  | s, [] => .ok (s, [])
  | s, op :: ops =>
    match step cfg s op with
    | .error f => .error f
    | .ok (s1, ev1) =>
      match run cfg s1 ops with
      | .error f => .error f
      | .ok (s2, ev2) => .ok (s2, ev1 ++ ev2)

/-- Number of `onClientSessionFinished` calls in a list of events. -/
def finishedCount : List Event → Nat
  | [] => 0
  | .onClientSessionFinished _ :: evs => finishedCount evs + 1
  | _ :: evs => finishedCount evs

/-- A sequence of `ClientSession::create` calls against one id counter. Returns what
each call returned, in call order, and the counter after the last call. -/
def createAll (cfg : BuildConfig) :
    Nat → List (SessionType × Option NetworkChannel) →
    Except Fault (List (Option ClientSession) × Nat)
  | id_counter, [] => .ok ([], id_counter)
  | id_counter, (session_type, channel) :: calls =>
    match ClientSession.create cfg id_counter session_type channel with
    | .error f => .error f
    | .ok (r, c1) =>
      match createAll cfg c1 calls with
      | .error f => .error f
      | .ok (rs, c2) => .ok (r :: rs, c2)

/-- Ids of the sessions that were created, in creation order. -/
def createdIds (results : List (Option ClientSession)) : List Nat :=
  results.filterMap (fun r => r.map (fun s => s.id_))

/-- Whether `create` builds a session for these arguments: a non-null channel and one
of the three kinds of the `switch`. -/
def admissible : SessionType × Option NetworkChannel → Bool
  | (.SESSION_TYPE_DESKTOP_MANAGE, some _) => true
  | (.SESSION_TYPE_DESKTOP_VIEW, some _) => true
  | (.SESSION_TYPE_FILE_TRANSFER, some _) => true
  | _ => false

/-- A sequence of constructor calls against one id counter, in call order; a failing
`DCHECK` ends the execution. Returns the objects built and the counter after the
last call. -/
def constructAll (cfg : BuildConfig) :
    Nat → List (SessionClass × SessionType × Option NetworkChannel) →
    Except Fault (List ClientSession × Nat)
  | id_counter, [] => .ok ([], id_counter)
  | id_counter, (cls, session_type, channel) :: calls =>
    match ClientSession.construct cfg id_counter cls session_type channel with
    | .error f => .error f
    | .ok (s, c1) =>
      match constructAll cfg c1 calls with
      | .error f => .error f
      | .ok (ss, c2) => .ok (s :: ss, c2)

/-- Calls of `start`. -/
def isStart : Op → Bool
  | .start _ => true
  | _ => false

/-- Calls that end a session: `stop` and `onDisconnected`. -/
def isTerminate : Op → Bool
  | .stop => true
  | .onDisconnected _ => true
  | _ => false

/-- Calls other than `start` and `onConnected`: `stop`, `onDisconnected`, `setVersion`,
`setUserName`, `setSessionId`, `sendMessage`. -/
def isFollowUp : Op → Bool
  | .start _ => false
  | .onConnected => false
  | _ => true

/-- The calls made on the delegate, in order, among a list of events. -/
def delegateCalls (evs : List Event) : List Event :=
  evs.filter (fun e => match e with
    | .onClientSessionFinished _ => true
    | _ => false)

/-- The calls made on the channel, in order, among a list of events. -/
def channelCalls (evs : List Event) : List Event :=
  evs.filter (fun e => match e with
    | .setListener _ _ => true
    | .resume _ => true
    | .send _ _ => true
    | _ => false)

end host

namespace ipc

/-- Calls on `SharedMemoryFactory::Delegate` (declared in `ipc/shared_memory_factory.h`). -/
inductive Notification where
  | onSharedMemoryCreate (id : Nat)
  | onSharedMemoryDestroy (id : Nat)
deriving DecidableEq, Repr

/-- Modelled from the spec: a segment handle (`ipc::SharedMemory`, only forward-declared
in the header): the id the factory assigned and the requested size. -/
structure SharedMemory where
  id : Nat
  size : Nat
deriving DecidableEq, Repr

/-- Largest value of the `int` id. -/
def kMaxId : Nat := 2147483647

/-- Modelled from the spec: the state around one `SharedMemoryFactory`, whose
implementation (`ipc/shared_memory_factory.cc`) is not in the sources.
`attached` is false once the factory has been destroyed and its proxy has detached;
`last_id` is the last id handed out by `create`; `live` are the handles that were
returned by `create` or `open` and are not released yet, each owned by its caller;
`existing` are the segments that exist at the OS level, with their sizes; `delivered`
are the calls made on the delegate, oldest first.
The spec lets the delegate reference be null without saying what a notification does
then; the model describes a factory that was given a delegate. -/
structure FactoryWorld where
  attached : Bool
  last_id : Nat
  live : List SharedMemory
  existing : List (Nat × Nat)
  delivered : List Notification
deriving DecidableEq, Repr

/-- Modelled from the spec: a factory right after construction, with no segments. -/
def FactoryWorld.initial : FactoryWorld :=
  { attached := true, last_id := 0, live := [], existing := [], delivered := [] }

/-- Modelled from the spec: `SharedMemoryFactory::create(size)`. Fails, with no effect,
on a destroyed factory, for `size = 0`, when the platform allocation fails
(`platform_ok = false`) or when the id space is exhausted. On success it assigns a
fresh id, records it and calls `onSharedMemoryCreate(id)` before the handle is
returned. -/
def FactoryWorld.create (w : FactoryWorld) (size : Nat) (platform_ok : Bool) :
    Option SharedMemory × FactoryWorld :=
  if w.attached && decide (0 < size) && platform_ok && decide (w.last_id < kMaxId) then
    let id := w.last_id + 1
    (some { id := id, size := size },
     { w with last_id := id
              live := { id := id, size := size } :: w.live
              existing := (id, size) :: w.existing
              delivered := w.delivered ++ [.onSharedMemoryCreate id] })
  else
    (none, w)

/-- Modelled from the spec: `SharedMemoryFactory::open(id)`. Fails, with no effect, on
a destroyed factory, when no segment with this id exists at the OS level, or on any
other platform error (`platform_ok = false`). On success it records the reference and
calls `onSharedMemoryCreate(id)` exactly as `create` does. -/
def FactoryWorld.open (w : FactoryWorld) (id : Nat) (platform_ok : Bool) :
    Option SharedMemory × FactoryWorld :=
  match w.existing.lookup id with
  | none => (none, w)
  | some size =>
    if w.attached && platform_ok then
      (some { id := id, size := size },
       { w with live := { id := id, size := size } :: w.live
                delivered := w.delivered ++ [.onSharedMemoryCreate id] })
    else
      (none, w)

/-- Modelled from the spec: `SharedMemoryFactory::~SharedMemoryFactory()`: the proxy
detaches from the factory. -/
def FactoryWorld.destroyFactory (w : FactoryWorld) : FactoryWorld :=
  { w with attached := false }

/-- Modelled from the spec: release of a segment handle by its owner. Only a handle
that was returned and is not released yet can be released. While the factory exists
it is told through `onSharedMemoryDestroy(id)`, once; when the factory was destroyed
first, the detached proxy drops the notification. Whether the segment still exists at
the OS level afterwards depends on the handles other processes hold, so `existing` is
left as it is. -/
def FactoryWorld.release (w : FactoryWorld) (h : SharedMemory) : FactoryWorld :=
  if h ∈ w.live then
    if w.attached then
      { w with live := w.live.erase h
               delivered := w.delivered ++ [.onSharedMemoryDestroy h.id] }
    else
      { w with live := w.live.erase h }
  else
    w

/-- One operation during the lifetime of the factory. -/
inductive FactoryOp where
  | callCreate (size : Nat) (platform_ok : Bool)
  | callOpen (id : Nat) (platform_ok : Bool)
  | callRelease (h : SharedMemory)
deriving DecidableEq, Repr

/-- The state after one operation. -/
def FactoryWorld.apply (w : FactoryWorld) : FactoryOp → FactoryWorld
  | .callCreate size platform_ok => (w.create size platform_ok).2
  | .callOpen id platform_ok => (w.open id platform_ok).2
  | .callRelease h => w.release h

/-- The state after a sequence of operations, in order. -/
def FactoryWorld.applyAll : FactoryWorld → List FactoryOp → FactoryWorld
  | w, [] => w
  | w, op :: ops => FactoryWorld.applyAll (w.apply op) ops

end ipc

namespace host

/-! ## Construction and the id counter -/

theorem construct_nonnull (cfg : BuildConfig) (n : Nat) (cls : SessionClass)
    (k : SessionType) (ch : NetworkChannel) :
    ClientSession.construct cfg n cls k (some ch) =
      .ok ({ cls := cls, id_ := (n + 1) % kUint32Modulus, session_type_ := k,
             state_ := .CREATED, channel_ := some ch, delegate_ := none, version_ := [],
             username_ := "", session_id_ := kInvalidSessionId },
           (n + 1) % kUint32Modulus) := by
  simp [ClientSession.construct]

theorem construct_ok_inv (cfg : BuildConfig) (n : Nat) (cls : SessionClass)
    (k : SessionType) (c : Option NetworkChannel) (s : ClientSession) (n1 : Nat)
    (h : ClientSession.construct cfg n cls k c = .ok (s, n1)) :
    n1 = (n + 1) % kUint32Modulus ∧ s.id_ = (n + 1) % kUint32Modulus ∧
      s.session_type_ = k ∧ s.cls = cls ∧ s.channel_ = c ∧ s.state_ = .CREATED ∧
      s.delegate_ = none := by
  unfold ClientSession.construct at h
  split at h
  · cases h
  · simp only [Except.ok.injEq, Prod.mk.injEq] at h
    obtain ⟨hs, hn⟩ := h
    subst hs
    exact ⟨hn.symm, rfl, rfl, rfl, rfl, rfl, rfl⟩

theorem create_null (cfg : BuildConfig) (id_counter : Nat) (k : SessionType)
    (c : Option NetworkChannel)
    (h : c = none ∨ (k ≠ .SESSION_TYPE_DESKTOP_MANAGE ∧ k ≠ .SESSION_TYPE_DESKTOP_VIEW ∧
          k ≠ .SESSION_TYPE_FILE_TRANSFER)) :
    ClientSession.create cfg id_counter k c = .ok (none, id_counter) := by
  rcases h with hc | ⟨h1, h2, h3⟩
  · subst hc
    rfl
  · cases c with
    | none => rfl
    | some ch =>
      cases k with
      | SESSION_TYPE_DESKTOP_MANAGE => exact absurd rfl h1
      | SESSION_TYPE_DESKTOP_VIEW => exact absurd rfl h2
      | SESSION_TYPE_FILE_TRANSFER => exact absurd rfl h3
      | SESSION_TYPE_OTHER raw => rfl

/-- C1: `create` returns null, leaving the counter alone, when the channel is null or
the kind is none of DESKTOP_MANAGE, DESKTOP_VIEW, FILE_TRANSFER; otherwise it returns a
session whose `session_type_` is the requested kind, of the desktop class for the two
desktop kinds and of the file-transfer class for FILE_TRANSFER. -/
theorem create_returns (cfg : BuildConfig) (id_counter : Nat) (k : SessionType)
    (c : Option NetworkChannel) :
    ((c = none ∨ (k ≠ .SESSION_TYPE_DESKTOP_MANAGE ∧ k ≠ .SESSION_TYPE_DESKTOP_VIEW ∧
          k ≠ .SESSION_TYPE_FILE_TRANSFER)) →
        ClientSession.create cfg id_counter k c = .ok (none, id_counter)) ∧
    ((c ≠ none ∧ (k = .SESSION_TYPE_DESKTOP_MANAGE ∨ k = .SESSION_TYPE_DESKTOP_VIEW ∨
          k = .SESSION_TYPE_FILE_TRANSFER)) →
        ∃ s n, ClientSession.create cfg id_counter k c = .ok (some s, n) ∧
          s.session_type_ = k ∧
          (k = .SESSION_TYPE_DESKTOP_MANAGE → s.cls = .ClientSessionDesktop) ∧
          (k = .SESSION_TYPE_DESKTOP_VIEW → s.cls = .ClientSessionDesktop) ∧
          (k = .SESSION_TYPE_FILE_TRANSFER → s.cls = .ClientSessionFileTransfer)) := by
  constructor
  · exact create_null cfg id_counter k c
  · rintro ⟨hc, hk⟩
    cases c with
    | none => exact absurd rfl hc
    | some ch =>
      rcases hk with hk | hk | hk <;> subst hk <;>
        simp [ClientSession.create, ClientSessionDesktop.construct,
          ClientSessionFileTransfer.construct, construct_nonnull]

/-- Witness for C1: a null channel gives null, a file-transfer request on channel 3
gives a file-transfer session. -/
theorem create_returns_witness :
    ClientSession.create ⟨true⟩ 0 .SESSION_TYPE_DESKTOP_VIEW none = .ok (none, 0) ∧
    ∃ s n, ClientSession.create ⟨true⟩ 0 .SESSION_TYPE_FILE_TRANSFER (some 3) = .ok (some s, n) ∧
      s.session_type_ = .SESSION_TYPE_FILE_TRANSFER ∧
      (SessionType.SESSION_TYPE_FILE_TRANSFER = .SESSION_TYPE_DESKTOP_MANAGE →
        s.cls = .ClientSessionDesktop) ∧
      (SessionType.SESSION_TYPE_FILE_TRANSFER = .SESSION_TYPE_DESKTOP_VIEW →
        s.cls = .ClientSessionDesktop) ∧
      (SessionType.SESSION_TYPE_FILE_TRANSFER = .SESSION_TYPE_FILE_TRANSFER →
        s.cls = .ClientSessionFileTransfer) :=
  ⟨(create_returns ⟨true⟩ 0 .SESSION_TYPE_DESKTOP_VIEW none).1 (Or.inl rfl),
   (create_returns ⟨true⟩ 0 .SESSION_TYPE_FILE_TRANSFER (some 3)).2
     ⟨by simp, Or.inr (Or.inr rfl)⟩⟩

theorem mod_succ_mod (c : Nat) :
    (c % kUint32Modulus + 1) % kUint32Modulus = (c + 1) % kUint32Modulus := by
  simp [Nat.add_mod]

theorem map_mod_range_of_lt (n : Nat) (hn : n < kUint32Modulus) :
    (List.range' 1 n).map (fun i => i % kUint32Modulus) = List.range' 1 n := by
  have h : ∀ i ∈ List.range' 1 n, (fun i => i % kUint32Modulus) i = id i := by
    intro i hi
    have hi2 := List.mem_range'_1.mp hi
    exact Nat.mod_eq_of_lt (by omega)
  rw [List.map_congr_left h, List.map_id]

/-- Ids handed out by a run of constructor calls that starts with the counter at
`c % 2^32`: the `i`-th object (from 1) gets `(c + i) % 2^32`. -/
theorem constructAll_ids (cfg : BuildConfig) :
    ∀ (calls : List (SessionClass × SessionType × Option NetworkChannel)) (c : Nat)
      (ss : List ClientSession) (c1 : Nat),
      constructAll cfg (c % kUint32Modulus) calls = .ok (ss, c1) →
      c1 = (c + calls.length) % kUint32Modulus ∧
      ss.map (fun s => s.id_) =
        (List.range' (c + 1) calls.length).map (fun i => i % kUint32Modulus) := by
  intro calls
  induction calls with
  | nil =>
    intro c ss c1 h
    simp only [constructAll, Except.ok.injEq, Prod.mk.injEq] at h
    obtain ⟨h1, h2⟩ := h
    subst h1
    subst h2
    simp
  | cons a rest ih =>
    intro c ss c1 h
    obtain ⟨cls, k, ch⟩ := a
    simp only [constructAll] at h
    split at h
    · cases h
    · rename_i s n1 hc
      split at h
      · cases h
      · rename_i ss1 n2 hr
        simp only [Except.ok.injEq, Prod.mk.injEq] at h
        obtain ⟨h1, h2⟩ := h
        subst h1
        subst h2
        obtain ⟨hn1, hid, -⟩ := construct_ok_inv cfg _ cls k ch s n1 hc
        rw [mod_succ_mod] at hn1 hid
        subst hn1
        obtain ⟨e1, e2⟩ := ih (c + 1) ss1 n2 hr
        refine ⟨?_, ?_⟩
        · rw [e1, List.length_cons]
          congr 1
          omega
        · rw [List.length_cons, List.range'_succ, List.map_cons, List.map_cons, hid, e2]

/-- A run of constructor calls with non-null channels builds every object. -/
theorem constructAll_total (cfg : BuildConfig) :
    ∀ (calls : List (SessionClass × SessionType × Option NetworkChannel)) (c : Nat),
      (∀ a ∈ calls, a.2.2 ≠ none) → ∃ r, constructAll cfg c calls = .ok r := by
  intro calls
  induction calls with
  | nil => intro c _; exact ⟨_, rfl⟩
  | cons a rest ih =>
    intro c h
    obtain ⟨cls, k, ch⟩ := a
    cases ch with
    | none => exact absurd rfl (h _ (List.mem_cons_self _ _))
    | some ch =>
      obtain ⟨r, hr⟩ := ih ((c + 1) % kUint32Modulus)
        (fun a ha => h a (List.mem_cons_of_mem _ ha))
      obtain ⟨ss, c2⟩ := r
      simp only [constructAll, construct_nonnull, hr]
      exact ⟨_, rfl⟩

/-- Counterexample to C2: after `2^32` constructions the `uint32_t` counter has wrapped.
The `2^32`-th session gets id 0, not `2^32`, and the next one gets id 1, the id of
the first session. -/
theorem session_id_wraps :
    ∃ ss c, constructAll ⟨true⟩ 0
        (List.replicate 4294967297
          (SessionClass.ClientSessionDesktop, SessionType.SESSION_TYPE_DESKTOP_VIEW, some 1))
        = .ok (ss, c) ∧
      (ss.map (fun s => s.id_))[0]? = some 1 ∧
      (ss.map (fun s => s.id_))[4294967295]? = some 0 ∧
      (ss.map (fun s => s.id_))[4294967296]? = some 1 := by
  obtain ⟨⟨ss, c⟩, hr⟩ := constructAll_total ⟨true⟩
    (List.replicate 4294967297
      (SessionClass.ClientSessionDesktop, SessionType.SESSION_TYPE_DESKTOP_VIEW, some 1)) 0
    (by
      intro a ha
      rw [List.eq_of_mem_replicate ha]
      simp)
  refine ⟨ss, c, hr, ?_⟩
  have h0 : (0 : Nat) = 0 % kUint32Modulus := rfl
  rw [h0] at hr
  obtain ⟨-, hids⟩ := constructAll_ids _ _ 0 ss c hr
  rw [hids, List.length_replicate]
  simp only [List.getElem?_map]
  rw [List.getElem?_range' _ _ (by omega), List.getElem?_range' _ _ (by omega),
    List.getElem?_range' _ _ (by omega)]
  simp [kUint32Modulus]

/-- C2 (amended): the `n`-th session constructed in a process has id `n mod 2^32`; as
long as fewer than `2^32` sessions have been constructed the ids are `1, 2, ..., n`
in construction order, hence strictly increasing and pairwise distinct. A run of
constructions with non-null channels builds every session. -/
theorem session_ids_sequential (cfg : BuildConfig)
    (calls : List (SessionClass × SessionType × Option NetworkChannel)) :
    (∀ ss c, constructAll cfg 0 calls = .ok (ss, c) →
      ss.map (fun s => s.id_) =
          (List.range' 1 calls.length).map (fun i => i % kUint32Modulus) ∧
      (calls.length < kUint32Modulus →
        ss.map (fun s => s.id_) = List.range' 1 calls.length ∧
        (ss.map (fun s => s.id_)).Pairwise (fun a b => a < b) ∧
        (ss.map (fun s => s.id_)).Nodup)) ∧
    ((∀ a ∈ calls, a.2.2 ≠ none) → ∃ r, constructAll cfg 0 calls = .ok r) := by
  refine ⟨?_, constructAll_total cfg calls 0⟩
  intro ss c h
  have h0 : (0 : Nat) = 0 % kUint32Modulus := rfl
  rw [h0] at h
  obtain ⟨-, hids⟩ := constructAll_ids cfg calls 0 ss c h
  rw [Nat.zero_add] at hids
  refine ⟨hids, ?_⟩
  intro hlen
  rw [hids, map_mod_range_of_lt _ hlen]
  exact ⟨rfl, List.pairwise_lt_range' 1 calls.length, List.nodup_range' 1 calls.length⟩

/-- Witness for C2 (amended): two constructions give the ids 1 and 2. -/
theorem session_ids_sequential_witness :
    (∃ r, constructAll ⟨false⟩ 0
        [(.ClientSessionDesktop, .SESSION_TYPE_DESKTOP_MANAGE, some 4),
         (.ClientSessionFileTransfer, .SESSION_TYPE_FILE_TRANSFER, some 9)] = .ok r) ∧
    ∀ ss c, constructAll ⟨false⟩ 0
        [(.ClientSessionDesktop, .SESSION_TYPE_DESKTOP_MANAGE, some 4),
         (.ClientSessionFileTransfer, .SESSION_TYPE_FILE_TRANSFER, some 9)] = .ok (ss, c) →
      ss.map (fun s => s.id_) = [1, 2] :=
  ⟨(session_ids_sequential ⟨false⟩
      [(.ClientSessionDesktop, .SESSION_TYPE_DESKTOP_MANAGE, some 4),
       (.ClientSessionFileTransfer, .SESSION_TYPE_FILE_TRANSFER, some 9)]).2 (by decide),
   fun ss c h =>
    (((session_ids_sequential ⟨false⟩
      [(.ClientSessionDesktop, .SESSION_TYPE_DESKTOP_MANAGE, some 4),
       (.ClientSessionFileTransfer, .SESSION_TYPE_FILE_TRANSFER, some 9)]).1 ss c h).2
        (by decide)).1⟩

theorem create_of_not_admissible (cfg : BuildConfig) (n : Nat) (k : SessionType)
    (c : Option NetworkChannel) (h : admissible (k, c) = false) :
    ClientSession.create cfg n k c = .ok (none, n) := by
  cases c with
  | none => rfl
  | some ch => cases k <;> first | rfl | simp [admissible] at h

theorem create_of_admissible (cfg : BuildConfig) (n : Nat) (k : SessionType)
    (c : Option NetworkChannel) (h : admissible (k, c) = true) :
    ∃ s, ClientSession.create cfg n k c = .ok (some s, (n + 1) % kUint32Modulus) ∧
      s.id_ = (n + 1) % kUint32Modulus ∧ s.channel_ = c ∧ s.channel_ ≠ none ∧
      s.delegate_ = none ∧ s.state_ = .CREATED := by
  cases c with
  | none => cases k <;> simp [admissible] at h
  | some ch =>
    cases k with
    | SESSION_TYPE_OTHER raw => simp [admissible] at h
    | _ =>
      simp [ClientSession.create, ClientSessionDesktop.construct,
        ClientSessionFileTransfer.construct, construct_nonnull]

/-- Results and ids of a run of `create` calls that starts with the counter at
`c % 2^32`: every call returns, a call builds a session exactly when its arguments
are admissible, and the `i`-th session built (from 1) gets `(c + i) % 2^32`. -/
theorem createAll_ids (cfg : BuildConfig) :
    ∀ (calls : List (SessionType × Option NetworkChannel)) (c : Nat),
      ∃ rs, createAll cfg (c % kUint32Modulus) calls =
          .ok (rs, (c + calls.countP admissible) % kUint32Modulus) ∧
        rs.map Option.isSome = calls.map admissible ∧
        createdIds rs =
          (List.range' (c + 1) (calls.countP admissible)).map (fun i => i % kUint32Modulus) := by
  intro calls
  induction calls with
  | nil => intro c; exact ⟨[], by simp [createAll, createdIds]⟩
  | cons a rest ih =>
    intro c
    obtain ⟨k, ch⟩ := a
    cases hadm : admissible (k, ch) with
    | false =>
      obtain ⟨rs, h1, h2, h3⟩ := ih c
      refine ⟨none :: rs, ?_, ?_, ?_⟩
      · simp only [createAll, create_of_not_admissible cfg _ k ch hadm, h1]
        simp [List.countP_cons, hadm]
      · simp [h2, hadm]
      · simpa [createdIds, List.countP_cons, hadm] using h3
    | true =>
      obtain ⟨s, hs, hid, -⟩ := create_of_admissible cfg (c % kUint32Modulus) k ch hadm
      rw [mod_succ_mod] at hs hid
      obtain ⟨rs, h1, h2, h3⟩ := ih (c + 1)
      refine ⟨some s :: rs, ?_, ?_, ?_⟩
      · simp only [createAll, hs, h1]
        simp only [List.countP_cons, hadm, if_true]
        congr 3
        omega
      · simp [h2, hadm]
      · simp only [createdIds] at h3
        simp only [createdIds, List.countP_cons, hadm, if_true, List.range'_succ, List.map_cons,
          List.filterMap_cons, Option.map_some', hid, h3]

/-- Counterexample to C9: in a run of `2^32` successful `create` calls the session
created last gets id 0, while the session created just before it has id
`4294967295`; the later id is not one more than the earlier one. -/
theorem create_id_not_successor :
    ∃ rs c, createAll ⟨false⟩ 0
        (List.replicate 4294967296 (SessionType.SESSION_TYPE_FILE_TRANSFER, some 2))
        = .ok (rs, c) ∧
      (createdIds rs)[4294967294]? = some 4294967295 ∧
      (createdIds rs)[4294967295]? = some 0 := by
  obtain ⟨rs, h1, -, h3⟩ := createAll_ids ⟨false⟩
    (List.replicate 4294967296 (SessionType.SESSION_TYPE_FILE_TRANSFER, some 2)) 0
  have h0 : 0 % kUint32Modulus = 0 := rfl
  rw [h0] at h1
  refine ⟨rs, _, h1, ?_⟩
  have hc : List.countP admissible
      (List.replicate 4294967296 (SessionType.SESSION_TYPE_FILE_TRANSFER, some 2))
      = 4294967296 := by
    rw [List.countP_replicate]
    simp [admissible]
  rw [h3, hc]
  simp only [List.getElem?_map]
  rw [List.getElem?_range' _ _ (by omega), List.getElem?_range' _ _ (by omega)]
  simp [kUint32Modulus]

/-- C9 (amended): a `create` call that returns null (null channel or unrecognised kind)
leaves the id counter unchanged. In every interleaving of failing and succeeding
calls, every call returns, exactly the admissible calls build a session, and the
`i`-th session built has id `i mod 2^32`: failed calls consume no id. While fewer
than `2^32` sessions have been built, the ids are `1, 2, ...`, each one more than the
id of the session built before it. -/
theorem failed_create_consumes_no_id (cfg : BuildConfig) (id_counter : Nat)
    (calls : List (SessionType × Option NetworkChannel)) :
    (∀ k c, (c = none ∨ (k ≠ .SESSION_TYPE_DESKTOP_MANAGE ∧ k ≠ .SESSION_TYPE_DESKTOP_VIEW ∧
          k ≠ .SESSION_TYPE_FILE_TRANSFER)) →
        ClientSession.create cfg id_counter k c = .ok (none, id_counter)) ∧
    ∃ rs, createAll cfg 0 calls = .ok (rs, calls.countP admissible % kUint32Modulus) ∧
      rs.map Option.isSome = calls.map admissible ∧
      createdIds rs =
        (List.range' 1 (calls.countP admissible)).map (fun i => i % kUint32Modulus) ∧
      (calls.countP admissible < kUint32Modulus →
        createdIds rs = List.range' 1 (calls.countP admissible)) := by
  refine ⟨fun k c h => create_null cfg id_counter k c h, ?_⟩
  obtain ⟨rs, h1, h2, h3⟩ := createAll_ids cfg calls 0
  have h0 : 0 % kUint32Modulus = 0 := rfl
  rw [h0, Nat.zero_add] at h1
  rw [Nat.zero_add] at h3
  refine ⟨rs, h1, h2, h3, ?_⟩
  intro hlt
  rw [h3, map_mod_range_of_lt _ hlt]

/-- Witness for C9 (amended): null channel, desktop session, unrecognised kind,
file-transfer session; the two sessions built get the ids 1 and 2. -/
theorem failed_create_consumes_no_id_witness :
    ClientSession.create ⟨true⟩ 7 (.SESSION_TYPE_OTHER 8) (some 1) = .ok (none, 7) ∧
    ∃ rs, createAll ⟨true⟩ 0
        [(.SESSION_TYPE_DESKTOP_VIEW, none), (.SESSION_TYPE_DESKTOP_VIEW, some 1),
         (.SESSION_TYPE_OTHER 8, some 2), (.SESSION_TYPE_FILE_TRANSFER, some 3)]
        = .ok (rs, 2) ∧
      rs.map Option.isSome = [false, true, false, true] ∧ createdIds rs = [1, 2] := by
  have h := failed_create_consumes_no_id ⟨true⟩ 7
    [(.SESSION_TYPE_DESKTOP_VIEW, none), (.SESSION_TYPE_DESKTOP_VIEW, some 1),
     (.SESSION_TYPE_OTHER 8, some 2), (.SESSION_TYPE_FILE_TRANSFER, some 3)]
  obtain ⟨rs, h1, h2, -, h4⟩ := h.2
  exact ⟨h.1 _ _ (Or.inr ⟨by simp, by simp, by simp⟩), rs, h1, h2, h4 (by decide)⟩

/-! ## Lifecycle operations -/

theorem start_nonnull (cfg : BuildConfig) (s : ClientSession) (d : Delegate)
    (ch : NetworkChannel) (hch : s.channel_ = some ch) :
    s.start cfg (some d) =
      .ok ({ s with state_ := .STARTED, delegate_ := some d },
           [.setListener ch s.id_, .resume ch, .onStarted s.id_]) := by
  simp [ClientSession.start, hch]

/-- C5: on a session with its channel `ch` (`create` builds no session without one), in
state CREATED or in any other state, `start(d)` with a non-null delegate `d` returns
with the state STARTED, `d` stored as delegate and every other member unchanged, after
exactly three outgoing calls in this order: `setListener(this)` on the channel,
`resume()` on the channel, the `onStarted` hook. The listener is installed before the
channel resumes. -/
theorem start_effect (cfg : BuildConfig) (s : ClientSession) (d : Delegate)
    (ch : NetworkChannel) (hch : s.channel_ = some ch) :
    s.start cfg (some d) =
      .ok ({ s with state_ := .STARTED, delegate_ := some d },
           [.setListener ch s.id_, .resume ch, .onStarted s.id_]) :=
  start_nonnull cfg s d ch hch

/-- Witness for C5: the first session of a process, in state CREATED on channel 5,
started with delegate 7. -/
theorem start_effect_witness :
    (⟨.ClientSessionDesktop, 1, .SESSION_TYPE_DESKTOP_VIEW, .CREATED, some 5, none, [], "",
        kInvalidSessionId⟩ : ClientSession).start ⟨true⟩ (some 7) =
      .ok (⟨.ClientSessionDesktop, 1, .SESSION_TYPE_DESKTOP_VIEW, .STARTED, some 5, some 7, [],
            "", kInvalidSessionId⟩,
           [.setListener 5 1, .resume 5, .onStarted 1]) :=
  start_effect ⟨true⟩
    ⟨.ClientSessionDesktop, 1, .SESSION_TYPE_DESKTOP_VIEW, .CREATED, some 5, none, [], "",
      kInvalidSessionId⟩ 7 5 rfl

/-- C7: on a session whose delegate `d` was stored by `start` (a started session; the
state it is in plays no role) `stop()` returns with the state FINISHED and every other
member unchanged (id, session type, class, channel, delegate, version, user name,
remote session id), and its only outgoing call is `onClientSessionFinished()` on the
delegate: no channel call is made. -/
theorem stop_frame (s : ClientSession) (d : Delegate) (hd : s.delegate_ = some d) :
    ∃ s1 evs, s.stop = .ok (s1, evs) ∧
      evs = [.onClientSessionFinished d] ∧ channelCalls evs = [] ∧
      s1.state_ = .FINISHED ∧ s1.id_ = s.id_ ∧ s1.session_type_ = s.session_type_ ∧
      s1.cls = s.cls ∧ s1.channel_ = s.channel_ ∧ s1.delegate_ = s.delegate_ ∧
      s1.version_ = s.version_ ∧ s1.username_ = s.username_ ∧
      s1.session_id_ = s.session_id_ := by
  refine ⟨{ s with state_ := .FINISHED }, [.onClientSessionFinished d], ?_, rfl, rfl, rfl, rfl,
    rfl, rfl, rfl, rfl, rfl, rfl, rfl⟩
  simp [ClientSession.stop, hd]

/-- Witness for C7: a started session with id 3 on channel 5 and delegate 7. -/
theorem stop_frame_witness :
    ∃ s1 evs,
      (⟨.ClientSessionFileTransfer, 3, .SESSION_TYPE_FILE_TRANSFER, .STARTED, some 5, some 7,
          [2, 0], "admin", 1⟩ : ClientSession).stop = .ok (s1, evs) ∧
      evs = [.onClientSessionFinished 7] ∧ channelCalls evs = [] ∧
      s1.state_ = .FINISHED ∧ s1.id_ = 3 ∧ s1.session_type_ = .SESSION_TYPE_FILE_TRANSFER ∧
      s1.cls = .ClientSessionFileTransfer ∧ s1.channel_ = some 5 ∧ s1.delegate_ = some 7 ∧
      s1.version_ = [2, 0] ∧ s1.username_ = "admin" ∧ s1.session_id_ = 1 :=
  stop_frame
    ⟨.ClientSessionFileTransfer, 3, .SESSION_TYPE_FILE_TRANSFER, .STARTED, some 5, some 7,
      [2, 0], "admin", 1⟩ 7 rfl

/-- Counterexample to C6: the first session of a process is built on channel 1 and is
in state CREATED; `onDisconnected(5)` on it dereferences the null delegate. -/
theorem onDisconnected_before_start_faults :
    ∃ s n, ClientSession.create ⟨false⟩ 0 .SESSION_TYPE_DESKTOP_VIEW (some 1) = .ok (some s, n) ∧
      s.state_ = .CREATED ∧ s.onDisconnected 5 = .error .null_delegate :=
  ⟨_, _, rfl, rfl, rfl⟩

/-- C6 (amended): on a session whose delegate `d` is set (`start` has run on it; the
state may be STARTED or FINISHED) `onDisconnected(e)` returns with the state FINISHED
and every other member unchanged, after logging `e` and calling
`onClientSessionFinished()` on the delegate once; the session and the delegate calls
are the same for every other error code. On a session whose delegate is unset the
delegate call is a null dereference. -/
theorem onDisconnected_effect (s : ClientSession) (e : ErrorCode) :
    (∀ d, s.delegate_ = some d →
      s.onDisconnected e =
        .ok ({ s with state_ := .FINISHED }, [.logWarning e, .onClientSessionFinished d]) ∧
      ∀ e1, (s.onDisconnected e1).map (fun r => (r.1, delegateCalls r.2)) =
        (s.onDisconnected e).map (fun r => (r.1, delegateCalls r.2))) ∧
    (s.delegate_ = none → s.onDisconnected e = .error .null_delegate) := by
  constructor
  · intro d hd
    have h : ∀ e1, s.onDisconnected e1 =
        .ok ({ s with state_ := .FINISHED }, [.logWarning e1, .onClientSessionFinished d]) := by
      intro e1
      simp [ClientSession.onDisconnected, hd]
    refine ⟨h e, fun e1 => ?_⟩
    rw [h e1, h e]
    rfl
  · intro hd
    simp [ClientSession.onDisconnected, hd]

/-- Witness for C6 (amended): a started session with delegate 7 is disconnected with
error code 4. -/
theorem onDisconnected_effect_witness :
    (⟨.ClientSessionDesktop, 1, .SESSION_TYPE_DESKTOP_VIEW, .STARTED, some 5, some 7, [], "",
        kInvalidSessionId⟩ : ClientSession).onDisconnected 4 =
      .ok (⟨.ClientSessionDesktop, 1, .SESSION_TYPE_DESKTOP_VIEW, .FINISHED, some 5, some 7, [],
            "", kInvalidSessionId⟩,
           [.logWarning 4, .onClientSessionFinished 7]) :=
  ((onDisconnected_effect
    ⟨.ClientSessionDesktop, 1, .SESSION_TYPE_DESKTOP_VIEW, .STARTED, some 5, some 7, [], "",
      kInvalidSessionId⟩ 4).1 7 rfl).1

theorem step_terminate (cfg : BuildConfig) (s : ClientSession) (d : Delegate) (op : Op)
    (hd : s.delegate_ = some d) (hop : isTerminate op = true) :
    ∃ evs, step cfg s op = .ok ({ s with state_ := .FINISHED }, evs) ∧
      finishedCount evs = 1 ∧ delegateCalls evs = [.onClientSessionFinished d] := by
  cases op with
  | stop => exact ⟨[.onClientSessionFinished d], by simp [step, ClientSession.stop, hd], rfl, rfl⟩
  | onDisconnected e =>
    exact ⟨[.logWarning e, .onClientSessionFinished d],
      by simp [step, ClientSession.onDisconnected, hd], rfl, rfl⟩
  | _ => simp [isTerminate] at hop

theorem finishedCount_append (a b : List Event) :
    finishedCount (a ++ b) = finishedCount a + finishedCount b := by
  induction a with
  | nil => simp [finishedCount]
  | cons e rest ih =>
    cases e <;> simp [finishedCount, ih]
    omega

theorem delegateCalls_append (a b : List Event) :
    delegateCalls (a ++ b) = delegateCalls a ++ delegateCalls b := by
  simp [delegateCalls]

/-- Counterexample to C3: a session is created, started with delegate 7 and stopped
twice, or stopped and then disconnected; the delegate is notified twice. -/
theorem stop_twice_notifies_twice :
    ∃ s0 n s1 ev1 s2 ev2 s3 ev3,
      ClientSession.create ⟨true⟩ 0 .SESSION_TYPE_DESKTOP_VIEW (some 1) = .ok (some s0, n) ∧
      s0.start ⟨true⟩ (some 7) = .ok (s1, ev1) ∧
      run ⟨true⟩ s1 [.stop, .stop] = .ok (s2, ev2) ∧ finishedCount ev2 = 2 ∧
      run ⟨true⟩ s1 [.stop, .onDisconnected 3] = .ok (s3, ev3) ∧ finishedCount ev3 = 2 :=
  ⟨_, _, _, _, _, _, _, _, rfl, rfl, rfl, rfl, rfl, rfl⟩

/-- C3 (amended): on a started session (delegate `d` stored by `start`) every `stop()`
and every `onDisconnected(e)` returns, sets the state to FINISHED and calls
`onClientSessionFinished()` on the delegate once, whether or not the session was
FINISHED already. A sequence of such calls therefore notifies the delegate once per
call: exactly once when it consists of one call, again for every later call. -/
theorem terminate_notifies_per_call (cfg : BuildConfig) (ops : List Op) :
    ∀ (s : ClientSession) (d : Delegate), s.delegate_ = some d →
      (∀ op ∈ ops, isTerminate op = true) →
      ∃ s1 evs, run cfg s ops = .ok (s1, evs) ∧
        finishedCount evs = ops.length ∧
        delegateCalls evs = List.replicate ops.length (.onClientSessionFinished d) ∧
        (ops ≠ [] → s1.state_ = .FINISHED) ∧ s1.delegate_ = some d := by
  induction ops with
  | nil =>
    intro s d hd _
    exact ⟨s, [], rfl, rfl, rfl, fun h => absurd rfl h, hd⟩
  | cons op rest ih =>
    intro s d hd hops
    obtain ⟨ev1, hstep, hc1, hd1⟩ := step_terminate cfg s d op hd
      (hops op (List.mem_cons_self _ _))
    obtain ⟨s2, ev2, hrun, hc2, hd2, hst, hdel⟩ := ih { s with state_ := .FINISHED } d hd
      (fun o ho => hops o (List.mem_cons_of_mem _ ho))
    refine ⟨s2, ev1 ++ ev2, ?_, ?_, ?_, ?_, hdel⟩
    · simp only [run, hstep, hrun]
    · rw [finishedCount_append, hc1, hc2, List.length_cons]
      omega
    · rw [delegateCalls_append, hd1, hd2, List.length_cons, List.replicate_succ]
      rfl
    · intro _
      cases rest with
      | nil =>
        simp only [run, Except.ok.injEq, Prod.mk.injEq] at hrun
        rw [← hrun.1]
      | cons o os => exact hst (List.cons_ne_nil _ _)

/-- Witness for C3 (amended): a started session with delegate 7 receives `stop()`,
`onDisconnected(3)` and `stop()`; the delegate is notified three times. -/
theorem terminate_notifies_per_call_witness :
    ∃ s1 evs,
      run ⟨true⟩
        ⟨.ClientSessionDesktop, 1, .SESSION_TYPE_DESKTOP_VIEW, .STARTED, some 5, some 7, [], "",
          kInvalidSessionId⟩ [.stop, .onDisconnected 3, .stop] = .ok (s1, evs) ∧
      finishedCount evs = 3 ∧
      delegateCalls evs = List.replicate 3 (.onClientSessionFinished 7) ∧
      (([.stop, .onDisconnected 3, .stop] : List Op) ≠ [] → s1.state_ = .FINISHED) ∧
      s1.delegate_ = some 7 :=
  terminate_notifies_per_call ⟨true⟩ [.stop, .onDisconnected 3, .stop]
    ⟨.ClientSessionDesktop, 1, .SESSION_TYPE_DESKTOP_VIEW, .STARTED, some 5, some 7, [], "",
      kInvalidSessionId⟩ 7 rfl (by decide)

/-- Counterexample to C4: a session is created, started and stopped, which leaves it
FINISHED; a further `start` returns and leaves it STARTED, an earlier state. -/
theorem start_after_finish_regresses :
    ∃ s0 n s1 ev1 s2 ev2 s3 ev3,
      ClientSession.create ⟨true⟩ 0 .SESSION_TYPE_DESKTOP_MANAGE (some 1) = .ok (some s0, n) ∧
      s0.start ⟨true⟩ (some 7) = .ok (s1, ev1) ∧
      s1.stop = .ok (s2, ev2) ∧ s2.state_ = .FINISHED ∧
      step ⟨true⟩ s2 (.start (some 7)) = .ok (s3, ev3) ∧ s3.state_ = .STARTED ∧
      s3.state_.rank < s2.state_.rank :=
  ⟨_, _, _, _, _, _, _, _, rfl, rfl, rfl, rfl, rfl, rfl, by decide⟩

/-- C4 (amended): for every operation other than `start` (`stop`, `onDisconnected`,
`setVersion`, `setUserName`, `setSessionId`, `sendMessage`, and `onConnected`) the
state after the operation is never earlier than the state before it, and a FINISHED
session stays FINISHED. `start` sets the state to STARTED whatever it was, so it
keeps the order from CREATED and from STARTED only. Each of these operations returns
when the channel is set and, for an operation that calls the delegate, the delegate
is set. -/
theorem state_monotone_except_start (cfg : BuildConfig) (s : ClientSession) (op : Op) :
    (∀ s1 evs, step cfg s op = .ok (s1, evs) →
      (isStart op = false →
        s.state_.rank ≤ s1.state_.rank ∧ (s.state_ = .FINISHED → s1.state_ = .FINISHED)) ∧
      (isStart op = true →
        s1.state_ = .STARTED ∧ (s.state_ ≠ .FINISHED → s.state_.rank ≤ s1.state_.rank))) ∧
    (isFollowUp op = true → s.channel_ ≠ none → s.delegate_ ≠ none →
      ∃ r, step cfg s op = .ok r) ∧
    (∀ d, s.channel_ ≠ none → ∃ r, step cfg s (.start (some d)) = .ok r) := by
  refine ⟨?_, ?_, ?_⟩
  · intro s1 evs h
    cases op with
    | start delegate =>
      refine ⟨fun hx => by simp [isStart] at hx, fun _ => ?_⟩
      simp only [step, ClientSession.start] at h
      split at h
      · cases h
      · split at h
        · cases h
        · simp only [Except.ok.injEq, Prod.mk.injEq] at h
          rw [← h.1]
          refine ⟨rfl, fun hne => ?_⟩
          cases hs : s.state_ with
          | CREATED => simp [State.rank]
          | STARTED => simp [State.rank]
          | FINISHED => exact absurd hs hne
    | stop =>
      refine ⟨fun _ => ?_, fun hx => by simp [isStart] at hx⟩
      simp only [step, ClientSession.stop] at h
      split at h
      · cases h
      · simp only [Except.ok.injEq, Prod.mk.injEq] at h
        rw [← h.1]
        exact ⟨by cases s.state_ <;> simp [State.rank], fun _ => rfl⟩
    | onDisconnected e =>
      refine ⟨fun _ => ?_, fun hx => by simp [isStart] at hx⟩
      simp only [step, ClientSession.onDisconnected] at h
      split at h
      · cases h
      · simp only [Except.ok.injEq, Prod.mk.injEq] at h
        rw [← h.1]
        exact ⟨by cases s.state_ <;> simp [State.rank], fun _ => rfl⟩
    | setVersion v =>
      refine ⟨fun _ => ?_, fun hx => by simp [isStart] at hx⟩
      simp only [step, ClientSession.setVersion, Except.ok.injEq, Prod.mk.injEq] at h
      rw [← h.1]
      exact ⟨Nat.le_refl _, fun hs => hs⟩
    | setUserName u =>
      refine ⟨fun _ => ?_, fun hx => by simp [isStart] at hx⟩
      simp only [step, ClientSession.setUserName, Except.ok.injEq, Prod.mk.injEq] at h
      rw [← h.1]
      exact ⟨Nat.le_refl _, fun hs => hs⟩
    | setSessionId i =>
      refine ⟨fun _ => ?_, fun hx => by simp [isStart] at hx⟩
      simp only [step, ClientSession.setSessionId, Except.ok.injEq, Prod.mk.injEq] at h
      rw [← h.1]
      exact ⟨Nat.le_refl _, fun hs => hs⟩
    | sendMessage b =>
      refine ⟨fun _ => ?_, fun hx => by simp [isStart] at hx⟩
      simp only [step, ClientSession.sendMessage] at h
      split at h
      · cases h
      · simp only [Except.ok.injEq, Prod.mk.injEq] at h
        rw [← h.1]
        exact ⟨Nat.le_refl _, fun hs => hs⟩
    | onConnected =>
      refine ⟨fun _ => ?_, fun hx => by simp [isStart] at hx⟩
      simp only [step, ClientSession.onConnected] at h
      split at h
      · cases h
      · simp only [Except.ok.injEq, Prod.mk.injEq] at h
        rw [← h.1]
        exact ⟨Nat.le_refl _, fun hs => hs⟩
  · intro hop hch hd
    obtain ⟨ch, hch1⟩ := Option.ne_none_iff_exists'.mp hch
    obtain ⟨d, hd1⟩ := Option.ne_none_iff_exists'.mp hd
    cases op with
    | start delegate => simp [isFollowUp] at hop
    | onConnected => simp [isFollowUp] at hop
    | stop => exact ⟨_, by simp [step, ClientSession.stop, hd1]; rfl⟩
    | onDisconnected e => exact ⟨_, by simp [step, ClientSession.onDisconnected, hd1]; rfl⟩
    | setVersion v => exact ⟨_, rfl⟩
    | setUserName u => exact ⟨_, rfl⟩
    | setSessionId i => exact ⟨_, rfl⟩
    | sendMessage b => exact ⟨_, by simp [step, ClientSession.sendMessage, hch1]; rfl⟩
  · intro d hch
    obtain ⟨ch, hch1⟩ := Option.ne_none_iff_exists'.mp hch
    exact ⟨_, by rw [step, start_nonnull cfg s d ch hch1]⟩

/-- Witness for C4 (amended): `stop()` on a started session with delegate 7 returns
and moves the state forward, from STARTED to FINISHED. -/
theorem state_monotone_except_start_witness :
    (∃ r, step ⟨true⟩
        ⟨.ClientSessionDesktop, 1, .SESSION_TYPE_DESKTOP_VIEW, .STARTED, some 5, some 7, [], "",
          kInvalidSessionId⟩ .stop = .ok r) ∧
    (⟨.ClientSessionDesktop, 1, .SESSION_TYPE_DESKTOP_VIEW, .STARTED, some 5, some 7, [], "",
        kInvalidSessionId⟩ : ClientSession).state_.rank ≤
      (⟨.ClientSessionDesktop, 1, .SESSION_TYPE_DESKTOP_VIEW, .FINISHED, some 5, some 7, [], "",
        kInvalidSessionId⟩ : ClientSession).state_.rank :=
  ⟨(state_monotone_except_start ⟨true⟩
      ⟨.ClientSessionDesktop, 1, .SESSION_TYPE_DESKTOP_VIEW, .STARTED, some 5, some 7, [], "",
        kInvalidSessionId⟩ .stop).2.1 rfl (by simp) (by simp),
   (((state_monotone_except_start ⟨true⟩
      ⟨.ClientSessionDesktop, 1, .SESSION_TYPE_DESKTOP_VIEW, .STARTED, some 5, some 7, [], "",
        kInvalidSessionId⟩ .stop).1
      ⟨.ClientSessionDesktop, 1, .SESSION_TYPE_DESKTOP_VIEW, .FINISHED, some 5, some 7, [], "",
        kInvalidSessionId⟩ [.onClientSessionFinished 7] rfl).1 rfl).1⟩

/-! ## The delegate pointer -/

theorem step_followUp_ok (cfg : BuildConfig) (s : ClientSession) (d : Delegate)
    (ch : NetworkChannel) (op : Op) (hd : s.delegate_ = some d) (hch : s.channel_ = some ch)
    (hop : isFollowUp op = true) :
    ∃ s1 evs, step cfg s op = .ok (s1, evs) ∧ s1.delegate_ = some d ∧
      s1.channel_ = some ch := by
  cases op with
  | start delegate => simp [isFollowUp] at hop
  | onConnected => simp [isFollowUp] at hop
  | stop =>
    exact ⟨{ s with state_ := .FINISHED }, [.onClientSessionFinished d],
      by simp [step, ClientSession.stop, hd], hd, hch⟩
  | onDisconnected e =>
    exact ⟨{ s with state_ := .FINISHED }, [.logWarning e, .onClientSessionFinished d],
      by simp [step, ClientSession.onDisconnected, hd], hd, hch⟩
  | setVersion v => exact ⟨{ s with version_ := v }, [], rfl, hd, hch⟩
  | setUserName u => exact ⟨{ s with username_ := u }, [], rfl, hd, hch⟩
  | setSessionId i => exact ⟨{ s with session_id_ := i }, [], rfl, hd, hch⟩
  | sendMessage b =>
    exact ⟨s, [.send ch b], by simp [step, ClientSession.sendMessage, hch], hd, hch⟩

theorem run_followUp_ok (cfg : BuildConfig) (d : Delegate) (ch : NetworkChannel)
    (ops : List Op) :
    ∀ (s : ClientSession), s.delegate_ = some d → s.channel_ = some ch →
      (∀ op ∈ ops, isFollowUp op = true) →
      ∃ s1 evs, run cfg s ops = .ok (s1, evs) ∧ s1.delegate_ = some d := by
  induction ops with
  | nil => intro s hd _ _; exact ⟨s, [], rfl, hd⟩
  | cons op rest ih =>
    intro s hd hch hops
    obtain ⟨s1, ev1, hstep, hd1, hch1⟩ := step_followUp_ok cfg s d ch op hd hch
      (hops op (List.mem_cons_self _ _))
    obtain ⟨s2, ev2, hrun, hd2⟩ := ih s1 hd1 hch1
      (fun o ho => hops o (List.mem_cons_of_mem _ ho))
    exact ⟨s2, ev1 ++ ev2, by simp only [run, hstep, hrun], hd2⟩

theorem step_null_delegate (cfg : BuildConfig) (s : ClientSession) (op : Op)
    (h : step cfg s op = .error .null_delegate) :
    s.delegate_ = none ∧ isTerminate op = true := by
  cases op with
  | start delegate =>
    simp only [step, ClientSession.start] at h
    split at h
    · cases h
    · split at h <;> cases h
  | stop =>
    simp only [step, ClientSession.stop] at h
    split at h
    · rename_i hd
      exact ⟨hd, rfl⟩
    · cases h
  | onDisconnected e =>
    simp only [step, ClientSession.onDisconnected] at h
    split at h
    · rename_i hd
      exact ⟨hd, rfl⟩
    · cases h
  | setVersion v => cases h
  | setUserName u => cases h
  | setSessionId i => cases h
  | sendMessage b =>
    simp only [step, ClientSession.sendMessage] at h
    split at h <;> cases h
  | onConnected =>
    simp only [step, ClientSession.onConnected] at h
    split at h <;> cases h

theorem step_keeps_delegate (cfg : BuildConfig) (s s1 : ClientSession) (evs : List Event)
    (op : Op) (h : step cfg s op = .ok (s1, evs)) (hop : isStart op = false) :
    s1.delegate_ = s.delegate_ := by
  cases op with
  | start delegate => simp [isStart] at hop
  | stop =>
    simp only [step, ClientSession.stop] at h
    split at h
    · cases h
    · simp only [Except.ok.injEq, Prod.mk.injEq] at h
      rw [← h.1]
  | onDisconnected e =>
    simp only [step, ClientSession.onDisconnected] at h
    split at h
    · cases h
    · simp only [Except.ok.injEq, Prod.mk.injEq] at h
      rw [← h.1]
  | setVersion v =>
    simp only [step, ClientSession.setVersion, Except.ok.injEq, Prod.mk.injEq] at h
    rw [← h.1]
  | setUserName u =>
    simp only [step, ClientSession.setUserName, Except.ok.injEq, Prod.mk.injEq] at h
    rw [← h.1]
  | setSessionId i =>
    simp only [step, ClientSession.setSessionId, Except.ok.injEq, Prod.mk.injEq] at h
    rw [← h.1]
  | sendMessage b =>
    simp only [step, ClientSession.sendMessage] at h
    split at h
    · cases h
    · simp only [Except.ok.injEq, Prod.mk.injEq] at h
      rw [← h.1]
  | onConnected =>
    simp only [step, ClientSession.onConnected] at h
    split at h
    · cases h
    · simp only [Except.ok.injEq, Prod.mk.injEq] at h
      rw [← h.1]

theorem step_start_delegate (cfg : BuildConfig) (s s1 : ClientSession)
    (evs : List Event) (delegate : Option Delegate)
    (h : step cfg s (.start delegate) = .ok (s1, evs)) :
    s1.delegate_ = delegate ∧ (delegate = none → cfg.dcheck_is_on = false) := by
  simp only [step, ClientSession.start] at h
  split at h
  · cases h
  · rename_i hdc
    split at h
    · cases h
    · simp only [Except.ok.injEq, Prod.mk.injEq] at h
      rw [← h.1]
      refine ⟨rfl, fun hn => ?_⟩
      subst hn
      cases hb : cfg.dcheck_is_on with
      | false => rfl
      | true => simp [hb] at hdc

/-- Where the null-delegate fault of a run comes from: it is raised by a `stop` or
`onDisconnected`, and either no `start` precedes that call and the session entered
the run with its delegate unset, or the build has no debug assertions and the last
`start` before that call was given a null delegate. -/
theorem run_fault_origin (cfg : BuildConfig) (ops : List Op) :
    ∀ (s : ClientSession), run cfg s ops = .error .null_delegate →
      ∃ pre op post, ops = pre ++ op :: post ∧ isTerminate op = true ∧
        (((∀ o ∈ pre, isStart o = false) ∧ s.delegate_ = none) ∨
         (cfg.dcheck_is_on = false ∧
           ∃ pre1 pre2, pre = pre1 ++ Op.start none :: pre2 ∧
             ∀ o ∈ pre2, isStart o = false)) := by
  induction ops with
  | nil => intro s h; cases h
  | cons op rest ih =>
    intro s h
    simp only [run] at h
    split at h
    · rename_i f hstep
      simp only [Except.error.injEq] at h
      subst h
      obtain ⟨hd, hterm⟩ := step_null_delegate cfg s op hstep
      exact ⟨[], op, rest, rfl, hterm, Or.inl ⟨fun o ho => (by cases ho), hd⟩⟩
    · rename_i s1 ev1 hstep
      split at h
      · rename_i f hrun
        simp only [Except.error.injEq] at h
        subst h
        obtain ⟨pre, o, post, hsplit, hterm, hor⟩ := ih s1 hrun
        refine ⟨op :: pre, o, post, by rw [hsplit]; rfl, hterm, ?_⟩
        rcases hor with ⟨hpre, hd1⟩ | ⟨hdc, pre1, pre2, hp, hpre2⟩
        · cases hst : isStart op with
          | false =>
            refine Or.inl ⟨?_, ?_⟩
            · intro x hx
              rcases List.mem_cons.mp hx with hx | hx
              · rw [hx]; exact hst
              · exact hpre x hx
            · rw [← step_keeps_delegate cfg s s1 ev1 op hstep hst]; exact hd1
          | true =>
            cases op with
            | start delegate =>
              obtain ⟨hdel, hoff⟩ := step_start_delegate cfg s s1 ev1 delegate hstep
              have hnone : delegate = none := by rw [← hdel]; exact hd1
              subst hnone
              exact Or.inr ⟨hoff rfl, [], pre, rfl, hpre⟩
            | _ => simp [isStart] at hst
        · refine Or.inr ⟨hdc, op :: pre1, pre2, by rw [hp]; rfl, hpre2⟩
      · cases h

/-- Counterexample to C10: in a build without debug assertions the first session of
a process is started with a null delegate, which returns and leaves it STARTED with
the delegate unset; `stop()` and `onDisconnected(0)` on this started session reach
the null-delegate fault. -/
theorem stop_after_null_start_faults :
    ∃ s0 n s1 ev1,
      ClientSession.create ⟨false⟩ 0 .SESSION_TYPE_DESKTOP_VIEW (some 1) = .ok (some s0, n) ∧
      s0.start ⟨false⟩ none = .ok (s1, ev1) ∧ s1.state_ = .STARTED ∧
      s1.stop = .error .null_delegate ∧ s1.onDisconnected 0 = .error .null_delegate ∧
      run ⟨false⟩ s0 [.start none, .stop] = .error .null_delegate :=
  ⟨_, _, _, _, rfl, rfl, rfl, rfl, rfl, rfl⟩

/-- C10 (amended): let `start(d)` with a non-null `d` be the first lifecycle call on a
session (which has its channel). Then `start` returns, every further sequence of
`stop`, `onDisconnected`, `setVersion`, `setUserName`, `setSessionId` and
`sendMessage` calls runs to its end without any fault, in particular without the
null-delegate fault, and the stored delegate is still `d`. On a session that was
never started (delegate unset) `stop` and `onDisconnected` do reach the null-delegate
fault. In every run on such a session the fault is raised by a `stop` or
`onDisconnected` that either no `start` precedes or, in a build without debug
assertions only, whose last preceding `start` was given a null delegate. -/
theorem delegate_stays_set (cfg : BuildConfig) (s0 : ClientSession) (ch : NetworkChannel)
    (hch : s0.channel_ = some ch) :
    (∀ d ops, (∀ op ∈ ops, isFollowUp op = true) →
      ∃ s1 ev1 s2 ev2, s0.start cfg (some d) = .ok (s1, ev1) ∧
        run cfg s1 ops = .ok (s2, ev2) ∧ s2.delegate_ = some d) ∧
    (s0.delegate_ = none →
      run cfg s0 [.stop] = .error .null_delegate ∧
      (∀ e, run cfg s0 [.onDisconnected e] = .error .null_delegate) ∧
      ∀ ops, run cfg s0 ops = .error .null_delegate →
        ∃ pre op post, ops = pre ++ op :: post ∧ isTerminate op = true ∧
          ((∀ o ∈ pre, isStart o = false) ∨
           (cfg.dcheck_is_on = false ∧
             ∃ pre1 pre2, pre = pre1 ++ Op.start none :: pre2 ∧
               ∀ o ∈ pre2, isStart o = false))) := by
  constructor
  · intro d ops hops
    obtain ⟨s2, ev2, hrun, hd2⟩ := run_followUp_ok cfg d ch ops
      { s0 with state_ := .STARTED, delegate_ := some d } rfl hch hops
    exact ⟨_, _, s2, ev2, start_nonnull cfg s0 d ch hch, hrun, hd2⟩
  · intro hd
    refine ⟨?_, ?_, ?_⟩
    · simp [run, step, ClientSession.stop, hd]
    · intro e
      simp [run, step, ClientSession.onDisconnected, hd]
    · intro ops h
      obtain ⟨pre, op, post, hsplit, hterm, hor⟩ := run_fault_origin cfg ops s0 h
      exact ⟨pre, op, post, hsplit, hterm, hor.imp (fun hh => hh.1) id⟩

/-- Witness for C10 (amended): the first session of a process, on channel 5, is
started with delegate 7, renamed, stopped and disconnected; the delegate is still 7. -/
theorem delegate_stays_set_witness :
    ∃ s1 ev1 s2 ev2,
      (⟨.ClientSessionDesktop, 1, .SESSION_TYPE_DESKTOP_VIEW, .CREATED, some 5, none, [], "",
          kInvalidSessionId⟩ : ClientSession).start ⟨false⟩ (some 7) = .ok (s1, ev1) ∧
      run ⟨false⟩ s1 [.setUserName "admin", .sendMessage [1, 2], .stop, .onDisconnected 0]
        = .ok (s2, ev2) ∧
      s2.delegate_ = some 7 :=
  (delegate_stays_set ⟨false⟩
    ⟨.ClientSessionDesktop, 1, .SESSION_TYPE_DESKTOP_VIEW, .CREATED, some 5, none, [], "",
      kInvalidSessionId⟩ 5 rfl).1 7
    [.setUserName "admin", .sendMessage [1, 2], .stop, .onDisconnected 0] (by decide)

end host

namespace ipc

/-! ## Shared-memory factory notifications -/

theorem create_success (w : FactoryWorld) (size : Nat) (platform_ok : Bool)
    (h1 : SharedMemory) (w1 : FactoryWorld)
    (hc : w.create size platform_ok = (some h1, w1)) :
    h1 = ⟨w.last_id + 1, size⟩ ∧ w1.attached = true ∧ h1 ∈ w1.live ∧
      w1.delivered = w.delivered ++ [.onSharedMemoryCreate h1.id] := by
  unfold FactoryWorld.create at hc
  split at hc
  · rename_i hcond
    simp only [Prod.mk.injEq, Option.some.injEq] at hc
    rw [← hc.1, ← hc.2]
    simp only [Bool.and_eq_true] at hcond
    exact ⟨rfl, hcond.1.1.1, List.mem_cons_self _ _, rfl⟩
  · simp at hc

theorem open_success (w : FactoryWorld) (id : Nat) (platform_ok : Bool)
    (h1 : SharedMemory) (w1 : FactoryWorld)
    (ho : w.open id platform_ok = (some h1, w1)) :
    h1.id = id ∧ w1.attached = true ∧ h1 ∈ w1.live ∧
      w1.delivered = w.delivered ++ [.onSharedMemoryCreate h1.id] := by
  unfold FactoryWorld.open at ho
  split at ho
  · simp at ho
  · split at ho
    · rename_i hcond
      simp only [Prod.mk.injEq, Option.some.injEq] at ho
      rw [← ho.1, ← ho.2]
      simp only [Bool.and_eq_true] at hcond
      exact ⟨rfl, hcond.1, List.mem_cons_self _ _, rfl⟩
    · simp at ho

theorem apply_keeps (w : FactoryWorld) (op : FactoryOp) (h : SharedMemory)
    (ha : w.attached = true) (hm : h ∈ w.live) (hop : op ≠ .callRelease h) :
    (w.apply op).attached = true ∧ h ∈ (w.apply op).live := by
  cases op with
  | callCreate size platform_ok =>
    simp only [FactoryWorld.apply, FactoryWorld.create]
    split
    · exact ⟨ha, List.mem_cons_of_mem _ hm⟩
    · exact ⟨ha, hm⟩
  | callOpen id platform_ok =>
    simp only [FactoryWorld.apply, FactoryWorld.open]
    split
    · exact ⟨ha, hm⟩
    · split
      · exact ⟨ha, List.mem_cons_of_mem _ hm⟩
      · exact ⟨ha, hm⟩
  | callRelease h2 =>
    have hne : h ≠ h2 := fun e => hop (by rw [e])
    by_cases hm2 : h2 ∈ w.live
    · simp [FactoryWorld.apply, FactoryWorld.release, hm2, ha, hm, List.mem_erase_of_ne hne]
    · simp [FactoryWorld.apply, FactoryWorld.release, hm2, ha, hm]

theorem applyAll_keeps (ops : List FactoryOp) (h : SharedMemory) :
    ∀ (w : FactoryWorld), w.attached = true → h ∈ w.live →
      (∀ op ∈ ops, op ≠ .callRelease h) →
      (w.applyAll ops).attached = true ∧ h ∈ (w.applyAll ops).live := by
  induction ops with
  | nil => intro w ha hm _; exact ⟨ha, hm⟩
  | cons op rest ih =>
    intro w ha hm hops
    obtain ⟨ha1, hm1⟩ := apply_keeps w op h ha hm (hops op (List.mem_cons_self _ _))
    exact ih (w.apply op) ha1 hm1 (fun o ho => hops o (List.mem_cons_of_mem _ ho))

theorem release_live (w : FactoryWorld) (h : SharedMemory) (ha : w.attached = true)
    (hm : h ∈ w.live) :
    (w.release h).delivered = w.delivered ++ [.onSharedMemoryDestroy h.id] := by
  simp [FactoryWorld.release, ha, hm]

/-- C8: during the lifetime of the factory, a successful `create(size)` or `open(id)`
adds exactly one notification, `onSharedMemoryCreate` with the id of the returned
handle, before the handle is returned; releasing that handle, right away or after any
further `create`, `open` and `release` of other handles, adds exactly one
notification, `onSharedMemoryDestroy` with the same id; a `create` or `open` that
returns null has no effect and adds no notification. `create` succeeds for a
positive size when the platform allocation succeeds and ids are left, `open`
succeeds for a segment that exists, `open` of an id that does not exist returns null. -/
theorem factory_notifications (w : FactoryWorld) (size id : Nat) (platform_ok : Bool) :
    (∀ h1 w1, w.create size platform_ok = (some h1, w1) →
      w1.delivered = w.delivered ++ [.onSharedMemoryCreate h1.id] ∧
      ∀ ops, (∀ op ∈ ops, op ≠ .callRelease h1) →
        ((w1.applyAll ops).release h1).delivered =
          (w1.applyAll ops).delivered ++ [.onSharedMemoryDestroy h1.id]) ∧
    (∀ h1 w1, w.open id platform_ok = (some h1, w1) →
      h1.id = id ∧ w1.delivered = w.delivered ++ [.onSharedMemoryCreate id] ∧
      ∀ ops, (∀ op ∈ ops, op ≠ .callRelease h1) →
        ((w1.applyAll ops).release h1).delivered =
          (w1.applyAll ops).delivered ++ [.onSharedMemoryDestroy id]) ∧
    (∀ w1, w.create size platform_ok = (none, w1) → w1 = w) ∧
    (∀ w1, w.open id platform_ok = (none, w1) → w1 = w) ∧
    (w.attached = true → 0 < size → platform_ok = true → w.last_id < kMaxId →
      ∃ w1, w.create size platform_ok = (some ⟨w.last_id + 1, size⟩, w1)) ∧
    (w.attached = true → platform_ok = true → ∀ sz, w.existing.lookup id = some sz →
      ∃ w1, w.open id platform_ok = (some ⟨id, sz⟩, w1)) ∧
    (w.existing.lookup id = none → w.open id platform_ok = (none, w)) := by
  refine ⟨?_, ?_, ?_, ?_, ?_, ?_, ?_⟩
  · intro h1 w1 hc
    obtain ⟨-, ha, hm, hd⟩ := create_success w size platform_ok h1 w1 hc
    refine ⟨hd, fun ops hops => ?_⟩
    obtain ⟨ha2, hm2⟩ := applyAll_keeps ops h1 w1 ha hm hops
    exact release_live _ h1 ha2 hm2
  · intro h1 w1 ho
    obtain ⟨hid, ha, hm, hd⟩ := open_success w id platform_ok h1 w1 ho
    rw [hid] at hd
    refine ⟨hid, hd, fun ops hops => ?_⟩
    obtain ⟨ha2, hm2⟩ := applyAll_keeps ops h1 w1 ha hm hops
    rw [← hid]
    exact release_live _ h1 ha2 hm2
  · intro w1 hc
    unfold FactoryWorld.create at hc
    split at hc
    · simp at hc
    · simp only [Prod.mk.injEq, true_and] at hc
      exact hc.symm
  · intro w1 ho
    unfold FactoryWorld.open at ho
    split at ho
    · simp only [Prod.mk.injEq, true_and] at ho
      exact ho.symm
    · split at ho
      · simp at ho
      · simp only [Prod.mk.injEq, true_and] at ho
        exact ho.symm
  · intro ha hs hp hl
    simp [FactoryWorld.create, ha, hs, hp, hl]
  · intro ha hp sz hl
    simp [FactoryWorld.open, ha, hp, hl]
  · intro hl
    simp [FactoryWorld.open, hl]

/-- Witness for C8: on a fresh factory `create(4096)` returns the handle with id 1 and
delivers `onSharedMemoryCreate(1)`; releasing that handle delivers
`onSharedMemoryDestroy(1)` after it; `open(1)` on the created segment returns a
handle with id 1 and delivers a second `onSharedMemoryCreate(1)`, and releasing this
handle delivers `onSharedMemoryDestroy(1)`; `open(9)` for an id that does not exist
returns null and leaves the factory as it was. -/
theorem factory_notifications_witness :
    ∃ w1 w2,
      FactoryWorld.initial.create 4096 true = (some ⟨1, 4096⟩, w1) ∧
      w1.delivered = [.onSharedMemoryCreate 1] ∧
      (w1.release ⟨1, 4096⟩).delivered =
        [.onSharedMemoryCreate 1, .onSharedMemoryDestroy 1] ∧
      w1.open 1 true = (some ⟨1, 4096⟩, w2) ∧
      w2.delivered = [.onSharedMemoryCreate 1, .onSharedMemoryCreate 1] ∧
      (w2.release ⟨1, 4096⟩).delivered =
        [.onSharedMemoryCreate 1, .onSharedMemoryCreate 1, .onSharedMemoryDestroy 1] ∧
      FactoryWorld.initial.open 9 true = (none, FactoryWorld.initial) :=
  ⟨(FactoryWorld.initial.create 4096 true).2,
   ((FactoryWorld.initial.create 4096 true).2.open 1 true).2,
   rfl,
   ((factory_notifications FactoryWorld.initial 4096 9 true).1 ⟨1, 4096⟩ _ rfl).1,
   ((factory_notifications FactoryWorld.initial 4096 9 true).1 ⟨1, 4096⟩ _ rfl).2 []
     (fun _ ho => nomatch ho),
   rfl,
   ((factory_notifications (FactoryWorld.initial.create 4096 true).2 4096 1 true).2.1
     ⟨1, 4096⟩ _ rfl).2.1,
   ((factory_notifications (FactoryWorld.initial.create 4096 true).2 4096 1 true).2.1
     ⟨1, 4096⟩ _ rfl).2.2 [] (fun _ ho => nomatch ho),
   (factory_notifications FactoryWorld.initial 4096 9 true).2.2.2.2.2.2 rfl⟩

end ipc
